import Mathlib

/-!
Shallow embedding of the checkout / order-materialization logic of
`apps/ventas/views.py` (sales365-backend).

Money amounts are modelled as exact rationals: the Python source computes
with `decimal.Decimal`, whose arithmetic on the magnitudes involved is
exact, and whose `quantize(Decimal('0.01'))` rounds with the default
context rounding, ROUND_HALF_EVEN.  That quantization is modelled
explicitly by `quantize2` below.

Database state is modelled as lists of records; the Django ORM calls of
`PagoViewSet.verificar_sesion_checkout` are modelled as list lookups and
updates, and `transaction.atomic` as an `Except`-valued function whose
result state is installed only on success.
-/

set_option maxRecDepth 16384

namespace Ventas

/-- Rounds a rational to the nearest integer, ties to the even integer.
This is ROUND_HALF_EVEN, the default rounding of Python `decimal`. -/
def roundHalfEven (x : ℚ) : ℤ :=
  if x - Rat.floor x < 1/2 then Rat.floor x
  else if 1/2 < x - Rat.floor x then Rat.floor x + 1
  else if Rat.floor x % 2 = 0 then Rat.floor x else Rat.floor x + 1

/-- Bridges `Rat.floor` with the `FloorRing` floor on `ℚ`. -/
theorem rat_floor_eq_floor (q : ℚ) : (Rat.floor q : ℤ) = ⌊q⌋ := by
  rw [Rat.floor_def, Rat.floor_def']

/-- Models `x.quantize(Decimal('0.01'))` with the default context rounding:
round to 2 decimal places, ties to even. -/
def quantize2 (x : ℚ) : ℚ :=
  (roundHalfEven (x * 100) : ℚ) / 100

/-- The tier percentage chosen by `calcular_costo_envio`
(`views.py` lines 40-49). -/
def porcentaje_envio (subtotal : ℚ) : ℚ :=
  if subtotal = 0 then 0
  else if subtotal < 100 then 15
  else if subtotal < 500 then 10
  else if subtotal < 1000 then 5
  else 0

/-- Models `calcular_costo_envio(subtotal)` (`views.py` lines 35-52):
the subtotal times the tier percentage over 100, quantized to 2 decimals. -/
def calcular_costo_envio (subtotal : ℚ) : ℚ :=
  quantize2 (subtotal * (porcentaje_envio subtotal / 100))

/-- Rounds a rational to the nearest integer, ties away from
(the positive side of) the integer below: round-half-up.  This is the
rounding mode the spec names; the code does not use it. -/
def roundHalfUp (x : ℚ) : ℤ :=
  if x - Rat.floor x < 1/2 then Rat.floor x else Rat.floor x + 1

/-- Quantization to 2 decimal places with round-half-up, as the spec words
it; for comparison against the code's `quantize2`. -/
def quantize2up (x : ℚ) : ℚ :=
  (roundHalfUp (x * 100) : ℚ) / 100

/-- The tier schedule exactly as the spec words it (spec section 4.1). -/
def tarifa_spec (s : ℚ) : ℚ :=
  if s = 0 then 0
  else if 0 < s ∧ s < 100 then 15
  else if 100 ≤ s ∧ s < 500 then 10
  else if 500 ≤ s ∧ s < 1000 then 5
  else 0

/-- Shipping cost as the spec claims it: spec tiers with round-half-up. -/
def costo_spec_halfUp (s : ℚ) : ℚ :=
  quantize2up (s * (tarifa_spec s / 100))

/-- Shipping cost with the spec tiers but the code's actual rounding
(round-half-even); used by the amended form of the rounding claim. -/
def costo_spec_halfEven (s : ℚ) : ℚ :=
  quantize2 (s * (tarifa_spec s / 100))

/-! ## Data model

Records mirror the Django models referenced by `views.py`.  Only the
fields the embedded code reads or writes are kept.  The customer primary
key is its `user_id` (the view fetches `Cliente.objects.get(user_id=...)`
and creates associations with `cliente_id=user_id`). -/

structure Producto where
  id : ℕ
  nombre : String
  precio : ℚ
  stock : ℤ
  deriving DecidableEq

structure Cliente where
  user_id : ℕ
  puntos_acumulados : ℚ
  deriving DecidableEq

structure TiendaCliente where
  tienda_id : ℕ
  cliente_id : ℕ
  deriving DecidableEq

structure Carrito where
  id : ℕ
  cliente_id : ℕ
  tienda_id : ℕ
  total : ℚ
  deriving DecidableEq

structure Detalle_Carrito where
  carrito_id : ℕ
  producto_id : ℕ
  cantidad : ℤ
  precio_unitario : ℚ
  deriving DecidableEq

structure Venta where
  id : ℕ
  total : ℚ
  estado : String
  tienda_id : ℕ
  cliente_id : ℕ
  carrito_id : ℕ
  deriving DecidableEq

structure Detalle_Venta where
  venta_id : ℕ
  producto_id : ℕ
  cantidad : ℤ
  precio_historico : ℚ
  deriving DecidableEq

structure Pago where
  venta_id : ℕ
  tienda_id : ℕ
  stripe_payment_intent_id : String
  monto_total : ℚ
  estado : String
  deriving DecidableEq

structure Envio where
  venta_id : ℕ
  tienda_id : ℕ
  direccion_entrega : String
  estado : String
  deriving DecidableEq

/-- The database state touched by the embedded views.  `tiendas` keeps only
store ids (the view reads nothing else from `Tienda` that matters here);
`next_id` supplies fresh primary keys for created `Carrito`/`Venta` rows. -/
structure DB where
  productos : List Producto
  clientes : List Cliente
  tiendas : List ℕ
  asociaciones : List TiendaCliente
  carritos : List Carrito
  ventas : List Venta
  detalles_carrito : List Detalle_Carrito
  detalles_venta : List Detalle_Venta
  pagos : List Pago
  envios : List Envio
  next_id : ℕ
  deriving DecidableEq

/-- One entry of the `items_data` metadata payload. -/
structure Item where
  producto_id : ℕ
  cantidad : ℤ
  deriving DecidableEq

/-- A checkout session as returned by `stripe.checkout.Session.retrieve`.
Metadata values are `Option`s (`none` models an absent or falsy value, as
tested by `not all([...])` on `views.py` line 211).  `items_data` is
doubly optional: the outer level is presence of the metadata key, the
inner level is whether `json.loads` succeeds. -/
structure StripeSession where
  status : String
  user_id : Option ℕ
  tienda_id : Option ℕ
  direccion_entrega : Option String
  items_data : Option (Option (List Item))
  payment_intent : Option String
  amount_total : ℤ
  deriving DecidableEq

/-- Everything `verificar_sesion_checkout` extracts from a session before
opening the transaction (`views.py` lines 201-219). -/
structure TxInput where
  user_id : ℕ
  tienda_id : ℕ
  direccion_entrega : String
  items : List Item
  stripe_payment_id : String
  total_pagado : ℚ
  deriving DecidableEq

/-- The distinct exceptions raised inside the `transaction.atomic()` block
(`views.py` lines 221-322); each aborts the whole transaction. -/
inductive TxError where
  | clienteNoExiste
  | tiendaNoExiste
  | productoNoExiste (producto_id : ℕ)
  | stockInsuficiente (producto_id : ℕ)
  | discrepancia
  deriving DecidableEq

/-- Outcome of metadata extraction (`views.py` lines 201-219). -/
inductive ExtractResult where
  | incompleta
  | jsonInvalido
  | datos (inp : TxInput)
  deriving DecidableEq

/-- The distinct responses of `verificar_sesion_checkout`. -/
inductive VerifResult where
  | ok
  | noSessionId
  | stripeError
  | notComplete
  | metadataIncompleta
  | jsonError
  | txError (e : TxError)
  deriving DecidableEq

/-- HTTP status of each response of `verificar_sesion_checkout`. -/
def statusCode : VerifResult → ℕ
  | .ok => 200
  | .noSessionId => 400
  | .stripeError => 500
  | .notComplete => 400
  | .metadataIncompleta => 500
  | .jsonError => 400
  | .txError _ => 500

/-- Models `TiendaCliente.objects.get_or_create(tienda=..., cliente_id=...)`
(`views.py` lines 226-229): creation when absent, no-op when present. -/
def ensure_asociacion (l : List TiendaCliente) (t c : ℕ) : List TiendaCliente :=
  match l.find? (fun a => a.tienda_id == t && a.cliente_id == c) with
  | some _ => l
  | none => l ++ [⟨t, c⟩]

/-- Models the per-line loop of the transaction (`views.py` lines 248-268):
for each item, fetch the product by pk (a `select_for_update` read of the
still-unmodified row), hard-check stock, accumulate the secure subtotal,
build the `Detalle_Carrito` row, and record the decremented product for the
final `bulk_update`. -/
def procesar_items (productos : List Producto) (carrito_id : ℕ) :
    List Item → ℚ → List Detalle_Carrito → List Producto →
    Except TxError (ℚ × List Detalle_Carrito × List Producto)
  | [], subtotal, dcs, upds => .ok (subtotal, dcs, upds)
  | item :: rest, subtotal, dcs, upds =>
    match productos.find? (fun p => p.id == item.producto_id) with
    | none => .error (.productoNoExiste item.producto_id)
    | some producto =>
      if producto.stock < item.cantidad then
        .error (.stockInsuficiente producto.id)
      else
        procesar_items productos carrito_id rest
          (subtotal + producto.precio * item.cantidad)
          (dcs ++ [⟨carrito_id, producto.id, item.cantidad, producto.precio⟩])
          (upds ++ [{ producto with stock := producto.stock - item.cantidad }])

/-- Models `Producto.objects.bulk_update(..., ['stock'])` (`views.py`
line 311): each recorded object overwrites the row with its id. -/
def bulk_update (productos : List Producto) (upds : List Producto) : List Producto :=
  upds.foldl (fun ps u => ps.map (fun p => if p.id == u.id then u else p)) productos

/-- Models the loyalty accrual (`views.py` lines 313-315): the customer
fetched at the start of the transaction gains `total * Decimal('0.0005')`
points, saved on its row. -/
def acreditar_puntos (clientes : List Cliente) (uid : ℕ) (total : ℚ) : List Cliente :=
  clientes.map fun c =>
    if c.user_id == uid then
      { c with puntos_acumulados := c.puntos_acumulados + total * (5/10000) }
    else c

/-- The database state committed by a successful transaction: association
ensured, `Carrito` and `Venta` created (ids from `next_id`), cart and sale
line items bulk-created, `Pago` and `Envio` created, stock bulk-updated,
loyalty points accrued (`views.py` lines 226-315). -/
def db_comprometida (db : DB) (inp : TxInput)
    (dcs : List Detalle_Carrito) (upds : List Producto) : DB :=
  let carrito_id := db.next_id
  let venta_id := db.next_id + 1
  { db with
    asociaciones := ensure_asociacion db.asociaciones inp.tienda_id inp.user_id
    carritos := db.carritos ++ [⟨carrito_id, inp.user_id, inp.tienda_id, inp.total_pagado⟩]
    ventas := db.ventas ++
      [⟨venta_id, inp.total_pagado, "PROCESADA", inp.tienda_id, inp.user_id, carrito_id⟩]
    detalles_carrito := db.detalles_carrito ++ dcs
    detalles_venta := db.detalles_venta ++
      dcs.map (fun d => ⟨venta_id, d.producto_id, d.cantidad, d.precio_unitario⟩)
    pagos := db.pagos ++
      [⟨venta_id, inp.tienda_id, inp.stripe_payment_id, inp.total_pagado, "COMPLETADO"⟩]
    envios := db.envios ++
      [⟨venta_id, inp.tienda_id, inp.direccion_entrega, "EN_PREPARACION"⟩]
    productos := bulk_update db.productos upds
    clientes := acreditar_puntos db.clientes inp.user_id inp.total_pagado
    next_id := db.next_id + 2 }

/-- Models the body of `with transaction.atomic():` (`views.py` lines
222-322).  Resolve customer and store, run the per-line loop against the
pre-transaction catalog, re-derive shipping and total, compare the
quantized totals, and only then build the committed state. -/
def procesar_transaccion (db : DB) (inp : TxInput) : Except TxError DB :=
  match db.clientes.find? (fun c => c.user_id == inp.user_id) with
  | none => .error .clienteNoExiste
  | some _ =>
    match db.tiendas.find? (fun t => t == inp.tienda_id) with
    | none => .error .tiendaNoExiste
    | some _ =>
      match procesar_items db.productos db.next_id inp.items 0 [] [] with
      | .error e => .error e
      | .ok (subtotal_seguro, dcs, upds) =>
        if quantize2 (subtotal_seguro + calcular_costo_envio subtotal_seguro) ≠
            quantize2 inp.total_pagado then
          .error .discrepancia
        else
          .ok (db_comprometida db inp dcs upds)

/-- Models the metadata extraction of `verificar_sesion_checkout`
(`views.py` lines 201-219): the `not all([...])` presence test, then
`json.loads` on `items_data`, then `amount_total / 100`. -/
def extraer_metadata (s : StripeSession) : ExtractResult :=
  match s.user_id, s.tienda_id, s.direccion_entrega, s.items_data, s.payment_intent with
  | some uid, some tid, some dir, some raw, some spid =>
    match raw with
    | none => .jsonInvalido
    | some items =>
      .datos ⟨uid, tid, dir, items, spid, (s.amount_total : ℚ) / 100⟩
  | _, _, _, _, _ => .incompleta

/-- Models `PagoViewSet.verificar_sesion_checkout` (`views.py` lines
185-333).  `retrieve` stands for `stripe.checkout.Session.retrieve`
(`none` models a Stripe error).  Returns the resulting database state
paired with the response: the transaction result state is installed only
when the whole transaction succeeds. -/
def verificar_sesion_checkout (db : DB) (retrieve : String → Option StripeSession)
    (session_id : Option String) : DB × VerifResult :=
  match session_id with
  | none => (db, .noSessionId)
  | some sid =>
    match retrieve sid with
    | none => (db, .stripeError)
    | some s =>
      if s.status ≠ "complete" then (db, .notComplete)
      else
        match extraer_metadata s with
        | .incompleta => (db, .metadataIncompleta)
        | .jsonInvalido => (db, .jsonError)
        | .datos inp =>
          match procesar_transaccion db inp with
          | .error e => (db, .txError e)
          | .ok db2 => (db2, .ok)

/-! ## Staff status-mutation workflow

Models `VentaAdminViewSet.partial_update` (`views.py` lines 419-473).
The three enumerated domains (`Venta.ESTADOS_VENTA`, `Pago.ESTADOS_PAGO`,
`Envio.ESTADOS_ENVIO`) live in model modules outside the embedded file, so
they are parameters here; the view only tests membership in them. -/

structure EstadoDominios where
  venta : List String
  pago : List String
  envio : List String

/-- A `PATCH` body for `VentaAdminViewSet.partial_update`: `none` models an
absent (or falsy) field, which the view skips. -/
structure PURequest where
  estado : Option String
  pago_estado : Option String
  envio_estado : Option String
  deriving DecidableEq

/-- The distinct responses of `VentaAdminViewSet.partial_update`. -/
inductive PUResult where
  | ok
  | ventaNotFound
  | invalidVenta (v : String)
  | pagoNotFound
  | invalidPago (v : String)
  | envioNotFound
  | invalidEnvio (v : String)
  deriving DecidableEq

/-- Models `instance.estado = v; instance.save(update_fields=['estado'])`
(`views.py` lines 440-441). -/
def update_venta_estado (ventas : List Venta) (vid : ℕ) (v : String) : List Venta :=
  ventas.map fun x => if x.id == vid then { x with estado := v } else x

/-- Models `pago.estado = v; pago.save(...)` on `instance.pagos.first()`
(`views.py` lines 446-454): only the first payment of the sale changes. -/
def update_first_pago : List Pago → ℕ → String → List Pago
  | [], _, _ => []
  | p :: ps, vid, v =>
    if p.venta_id == vid then { p with estado := v } :: ps
    else p :: update_first_pago ps vid v

/-- Models `envio.estado = v; envio.save(...)` on `instance.envio`
(`views.py` lines 459-467). -/
def update_first_envio : List Envio → ℕ → String → List Envio
  | [], _, _ => []
  | e :: es, vid, v =>
    if e.venta_id == vid then { e with estado := v } :: es
    else e :: update_first_envio es vid v

/-- Shipment-status branch of `partial_update` (`views.py` lines 457-468):
existence check, then domain check, then save. -/
def partial_update_envio (doms : EstadoDominios) (db : DB) (vid : ℕ)
    (req : PURequest) : DB × PUResult :=
  match req.envio_estado with
  | none => (db, .ok)
  | some v =>
    match db.envios.find? (fun e => e.venta_id == vid) with
    | none => (db, .envioNotFound)
    | some _ =>
      if v ∈ doms.envio then
        ({ db with envios := update_first_envio db.envios vid v }, .ok)
      else (db, .invalidEnvio v)

/-- Payment-status branch of `partial_update` (`views.py` lines 444-455):
existence check, then domain check, then save, then the shipment branch. -/
def partial_update_pago (doms : EstadoDominios) (db : DB) (vid : ℕ)
    (req : PURequest) : DB × PUResult :=
  match req.pago_estado with
  | none => partial_update_envio doms db vid req
  | some v =>
    match db.pagos.find? (fun p => p.venta_id == vid) with
    | none => (db, .pagoNotFound)
    | some _ =>
      if v ∈ doms.pago then
        partial_update_envio doms
          { db with pagos := update_first_pago db.pagos vid v } vid req
      else (db, .invalidPago v)

/-- Models `VentaAdminViewSet.partial_update` (`views.py` lines 419-473):
each provided field is validated and saved in sequence — sale status,
then payment status, then shipment status — with no surrounding
transaction, so an early save persists even if a later field errors. -/
def partial_update (doms : EstadoDominios) (db : DB) (vid : ℕ)
    (req : PURequest) : DB × PUResult :=
  match db.ventas.find? (fun x => x.id == vid) with
  | none => (db, .ventaNotFound)
  | some _ =>
    match req.estado with
    | none => partial_update_pago doms db vid req
    | some v =>
      if v ∈ doms.venta then
        partial_update_pago doms
          { db with ventas := update_venta_estado db.ventas vid v } vid req
      else (db, .invalidVenta v)

/-- State after the sale-status branch of `partial_update` has run on a
provided valid value (`views.py` lines 437-442): the save is immediate,
there is no surrounding transaction. -/
def aplicar_estado (db : DB) (vid : ℕ) : Option String → DB
  | none => db
  | some v => { db with ventas := update_venta_estado db.ventas vid v }

/-- State after the payment-status branch of `partial_update` has run on a
provided valid value (`views.py` lines 445-455): the save is immediate,
there is no surrounding transaction. -/
def aplicar_pago (db : DB) (vid : ℕ) : Option String → DB
  | none => db
  | some w => { db with pagos := update_first_pago db.pagos vid w }

/-- Number of association records for one (store, customer) pair; the
pair is duplicated exactly when this exceeds 1. -/
def cuenta_asociacion (l : List TiendaCliente) (t c : ℕ) : ℕ :=
  (l.filter (fun a => a.tienda_id == t && a.cliente_id == c)).length

/-! ## Concrete fixtures

Small concrete states used by witness theorems. -/

def pEx : Producto := ⟨1, "Widget", 10, 5⟩

def cEx : Cliente := ⟨7, 0⟩

def dbEx : DB := ⟨[pEx], [cEx], [3], [], [], [], [], [], [], [], 0⟩

/-- A completed session whose captured amount (23.00) matches the
recomputed total for two units at price 10 plus 15 percent shipping. -/
def sessEx : StripeSession :=
  ⟨"complete", some 7, some 3, some "Calle 1", some (some [⟨1, 2⟩]), some "pi_123", 2300⟩

/-- A completed session whose captured amount (9.99) does not match the
recomputed total (23.00). -/
def sessBad : StripeSession :=
  ⟨"complete", some 7, some 3, some "Calle 1", some (some [⟨1, 2⟩]), some "pi_123", 999⟩

/-- A completed session with the user id missing from its metadata. -/
def sessNoMeta : StripeSession :=
  ⟨"complete", none, some 3, some "Calle 1", some (some [⟨1, 2⟩]), some "pi_123", 2300⟩

/-- A completed session whose items metadata fails to parse as JSON. -/
def sessBadJson : StripeSession :=
  ⟨"complete", some 7, some 3, some "Calle 1", some none, some "pi_123", 2300⟩

/-- A completed session asking for more units (9) than the stock (5). -/
def sessOversell : StripeSession :=
  ⟨"complete", some 7, some 3, some "Calle 1", some (some [⟨1, 9⟩]), some "pi_123", 10350⟩

def retrieveEx : String → Option StripeSession :=
  fun sid => if sid == "cs_1" then some sessEx else none

def retrieveBad : String → Option StripeSession :=
  fun sid => if sid == "cs_1" then some sessBad else none

def retrieveOversell : String → Option StripeSession :=
  fun sid => if sid == "cs_1" then some sessOversell else none

def retrieveNone : String → Option StripeSession := fun _ => none

def inpEx : TxInput := ⟨7, 3, "Calle 1", [⟨1, 2⟩], "pi_123", 23⟩

def inpBad : TxInput := ⟨7, 3, "Calle 1", [⟨1, 2⟩], "pi_123", 999/100⟩

def inpOversell : TxInput := ⟨7, 3, "Calle 1", [⟨1, 9⟩], "pi_123", 10350/100⟩

def ventaEx : Venta := ⟨1, 23, "PROCESADA", 3, 7, 0⟩

def pagoEx : Pago := ⟨1, 3, "pi_123", 23, "COMPLETADO"⟩

def envioEx : Envio := ⟨1, 3, "Calle 1", "EN_PREPARACION"⟩

/-- A state holding one committed sale with its payment and shipment. -/
def dbStaff : DB :=
  ⟨[pEx], [cEx], [3], [⟨3, 7⟩], [⟨0, 7, 3, 23⟩], [ventaEx], [], [], [pagoEx], [envioEx], 2⟩

def domsEx : EstadoDominios :=
  ⟨["PENDIENTE", "PROCESADA"], ["PENDIENTE", "COMPLETADO"], ["EN_PREPARACION", "ENVIADO"]⟩

/-! ## Arithmetic lemmas -/

theorem porcentaje_envio_cases (s : ℚ) :
    porcentaje_envio s = 0 ∨ porcentaje_envio s = 5 ∨
    porcentaje_envio s = 10 ∨ porcentaje_envio s = 15 := by
  unfold porcentaje_envio
  split_ifs <;> simp

theorem porcentaje_envio_nonneg (s : ℚ) : 0 ≤ porcentaje_envio s := by
  rcases porcentaje_envio_cases s with h | h | h | h <;> rw [h] <;> norm_num

theorem porcentaje_envio_le_15 (s : ℚ) : porcentaje_envio s ≤ 15 := by
  rcases porcentaje_envio_cases s with h | h | h | h <;> rw [h] <;> norm_num

theorem roundHalfEven_nonneg {x : ℚ} (hx : 0 ≤ x) : 0 ≤ roundHalfEven x := by
  unfold roundHalfEven
  have hf : (0 : ℤ) ≤ Rat.floor x := by
    rw [rat_floor_eq_floor]; exact Int.floor_nonneg.mpr hx
  split_ifs <;> omega

theorem roundHalfEven_le (x : ℚ) : (roundHalfEven x : ℚ) ≤ x + 1/2 := by
  unfold roundHalfEven
  have hf : (Rat.floor x : ℚ) ≤ x := by
    rw [rat_floor_eq_floor]; exact_mod_cast Int.floor_le x
  split_ifs with h1 h2 h3
  · linarith
  · push_cast; linarith
  · linarith
  · push_cast
    have h : x - (Rat.floor x : ℚ) = 1/2 := le_antisymm (not_lt.mp h2) (not_lt.mp h1)
    linarith

theorem quantize2_nonneg {x : ℚ} (hx : 0 ≤ x) : 0 ≤ quantize2 x := by
  unfold quantize2
  have h : (0 : ℤ) ≤ roundHalfEven (x * 100) :=
    roundHalfEven_nonneg (by positivity)
  have h2 : (0 : ℚ) ≤ (roundHalfEven (x * 100) : ℚ) := by exact_mod_cast h
  linarith

theorem quantize2_le (x : ℚ) : quantize2 x ≤ x + 1/200 := by
  unfold quantize2
  have h := roundHalfEven_le (x * 100)
  rw [div_le_iff₀ (by norm_num : (0:ℚ) < 100)]
  linarith

theorem porcentaje_eq_tarifa {s : ℚ} (hs : 0 ≤ s) :
    porcentaje_envio s = tarifa_spec s := by
  by_cases h0 : s = 0
  · simp [porcentaje_envio, tarifa_spec, h0]
  · have hpos : 0 < s := lt_of_le_of_ne hs (Ne.symm h0)
    by_cases h1 : s < 100
    · simp [porcentaje_envio, tarifa_spec, h0, h1, hpos]
    · have h1' : 100 ≤ s := not_lt.mp h1
      by_cases h2 : s < 500
      · simp [porcentaje_envio, tarifa_spec, h0, h1, h1', h2]
      · have h2' : 500 ≤ s := not_lt.mp h2
        by_cases h3 : s < 1000
        · simp [porcentaje_envio, tarifa_spec, h0, h1, h2, h2', h3]
        · simp [porcentaje_envio, tarifa_spec, h0, h1, h2, h3]

theorem porcentaje_antitone {s t : ℚ} (hs : 0 < s) (hst : s ≤ t) :
    porcentaje_envio t ≤ porcentaje_envio s := by
  unfold porcentaje_envio
  split_ifs <;> linarith

/-- C5 helper: the quantized shipping cost is bounded by 15 percent of the
subtotal plus half a cent of rounding slack. -/
theorem calcular_costo_envio_le {s : ℚ} (hs : 0 ≤ s) :
    calcular_costo_envio s ≤ 15/100 * s + 1/200 := by
  unfold calcular_costo_envio
  have h1 : s * (porcentaje_envio s / 100) ≤ s * (15 / 100) :=
    mul_le_mul_of_nonneg_left (by linarith [porcentaje_envio_le_15 s]) hs
  calc quantize2 (s * (porcentaje_envio s / 100))
      ≤ s * (porcentaje_envio s / 100) + 1/200 := quantize2_le _
    _ ≤ 15/100 * s + 1/200 := by linarith

/-- C4, amended: the claim's cost values and tier schedule are right, but
the rounding the code performs is round-half-even (the `decimal` default),
not round-half-up. -/
theorem calcular_costo_envio_spec_halfEven :
    (∀ s : ℚ, 0 ≤ s → calcular_costo_envio s = costo_spec_halfEven s) ∧
    calcular_costo_envio 100 = 10 ∧ calcular_costo_envio 0 = 0 ∧
    calcular_costo_envio (99999/100) = 50 := by
  refine ⟨fun s hs => ?_, by with_unfolding_all rfl,
    by with_unfolding_all rfl, by with_unfolding_all rfl⟩
  unfold calcular_costo_envio costo_spec_halfEven
  rw [porcentaje_eq_tarifa hs]

/-- C4 witness: the amended equation evaluated at subtotal 100.05. -/
theorem calcular_costo_envio_spec_halfEven_witness :
    calcular_costo_envio (2001/20) = costo_spec_halfEven (2001/20) :=
  calcular_costo_envio_spec_halfEven.1 (2001/20) (by norm_num)

/-- C4 counterexample: at subtotal 100.05 the 10 percent tier gives 10.005,
which the code rounds half-even to 10.00, while round-half-up as claimed
would give 10.01. -/
theorem calcular_costo_envio_not_halfUp :
    calcular_costo_envio (2001/20) = 10 ∧
    costo_spec_halfUp (2001/20) = 1001/100 ∧
    calcular_costo_envio (2001/20) ≠ costo_spec_halfUp (2001/20) := by
  with_unfolding_all decide

/-- C5, amended: the cost function is deterministic, non-negative, bounded
by 15 percent of the subtotal plus the half-cent quantization slack, and
its tier percentage is non-increasing across the 100/500/1000 thresholds.
The claim's bare 15 percent bound fails only by the rounding slack. -/
theorem calcular_costo_envio_props :
    ∀ s : ℚ, 0 ≤ s →
      (∀ t : ℚ, s = t → calcular_costo_envio s = calcular_costo_envio t) ∧
      0 ≤ calcular_costo_envio s ∧
      calcular_costo_envio s ≤ 15/100 * s + 1/200 ∧
      (∀ t : ℚ, 0 < s → s ≤ t → porcentaje_envio t ≤ porcentaje_envio s) := by
  intro s hs
  refine ⟨fun t ht => by rw [ht], ?_, calcular_costo_envio_le hs,
    fun t h1 h2 => porcentaje_antitone h1 h2⟩
  apply quantize2_nonneg
  exact mul_nonneg hs (div_nonneg (porcentaje_envio_nonneg s) (by norm_num))

/-- C5 witness: the amended bounds evaluated at subtotal 100. -/
theorem calcular_costo_envio_props_witness :
    0 ≤ calcular_costo_envio 100 ∧
    calcular_costo_envio 100 ≤ 15/100 * 100 + 1/200 :=
  ⟨(calcular_costo_envio_props 100 (by norm_num)).2.1,
   (calcular_costo_envio_props 100 (by norm_num)).2.2.1⟩

/-- C5 counterexample: at subtotal 0.05 the 15 percent tier gives 0.0075,
which quantization rounds up to 0.01, exceeding 15 percent of the
subtotal. -/
theorem calcular_costo_envio_exceeds_15pct :
    ¬ calcular_costo_envio (1/20) ≤ 15/100 * (1/20) := by
  with_unfolding_all decide

/-! ## Transaction lemmas -/

/-- Every run either leaves the state untouched and reports a non-ok
response, or commits some transaction result and reports ok. -/
theorem verificar_cases (db : DB) (r : String → Option StripeSession)
    (sid : Option String) :
    ((verificar_sesion_checkout db r sid).1 = db ∧
      (verificar_sesion_checkout db r sid).2 ≠ .ok) ∨
    (∃ inp db2, procesar_transaccion db inp = .ok db2 ∧
      verificar_sesion_checkout db r sid = (db2, .ok)) := by
  rcases sid with _ | sid
  · refine Or.inl ⟨?_, ?_⟩ <;> simp [verificar_sesion_checkout]
  · rcases hr : r sid with _ | s
    · refine Or.inl ⟨?_, ?_⟩ <;> simp [verificar_sesion_checkout, hr]
    · by_cases hst : s.status = "complete"
      · rcases hm : extraer_metadata s with _ | _ | inp
        · refine Or.inl ⟨?_, ?_⟩ <;>
            simp [verificar_sesion_checkout, hr, hst, hm]
        · refine Or.inl ⟨?_, ?_⟩ <;>
            simp [verificar_sesion_checkout, hr, hst, hm]
        · rcases hp : procesar_transaccion db inp with e | db2
          · refine Or.inl ⟨?_, ?_⟩ <;>
              simp [verificar_sesion_checkout, hr, hst, hm, hp]
          · refine Or.inr ⟨inp, db2, hp, ?_⟩
            simp [verificar_sesion_checkout, hr, hst, hm, hp]
      · refine Or.inl ⟨?_, ?_⟩ <;> simp [verificar_sesion_checkout, hr, hst]

/-- Any non-ok run leaves the database untouched. -/
theorem verificar_ne_ok_unchanged {db : DB} {r : String → Option StripeSession}
    {sid : Option String} (h : (verificar_sesion_checkout db r sid).2 ≠ .ok) :
    (verificar_sesion_checkout db r sid).1 = db := by
  rcases verificar_cases db r sid with ⟨h1, _⟩ | ⟨inp, db2, _, heq⟩
  · exact h1
  · exact absurd (by rw [heq]) h

/-- Reduction of a run whose session retrieval, status check and metadata
extraction all succeed: the outcome is that of the transaction. -/
theorem verificar_reduce (db : DB) {r : String → Option StripeSession}
    {sid : String} {s : StripeSession} {inp : TxInput}
    (h1 : r sid = some s) (h2 : s.status = "complete")
    (h3 : extraer_metadata s = .datos inp) :
    verificar_sesion_checkout db r (some sid) =
      match procesar_transaccion db inp with
      | .error e => (db, .txError e)
      | .ok db2 => (db2, .ok) := by
  unfold verificar_sesion_checkout
  simp only [h1, h2, h3, ne_eq, not_true_eq_false, if_false]

/-- Shape of a successful transaction: the per-line loop succeeded and the
committed state is `db_comprometida` of its outputs. -/
theorem procesar_ok_shape {db : DB} {inp : TxInput} {db2 : DB}
    (h : procesar_transaccion db inp = .ok db2) :
    ∃ st dcs upds,
      procesar_items db.productos db.next_id inp.items 0 [] [] = .ok (st, dcs, upds) ∧
      quantize2 (st + calcular_costo_envio st) = quantize2 inp.total_pagado ∧
      db2 = db_comprometida db inp dcs upds := by
  unfold procesar_transaccion at h
  rcases hc : db.clientes.find? (fun c => c.user_id == inp.user_id) with _ | c
  · simp [hc] at h
  simp only [hc] at h
  rcases ht : db.tiendas.find? (fun t => t == inp.tienda_id) with _ | t
  · simp [ht] at h
  simp only [ht] at h
  rcases hi : procesar_items db.productos db.next_id inp.items 0 [] [] with
    e | ⟨st, dcs, upds⟩
  · simp [hi] at h
  simp only [hi] at h
  by_cases hq : quantize2 (st + calcular_costo_envio st) = quantize2 inp.total_pagado
  · rw [if_neg (by simpa using hq)] at h
    exact ⟨st, dcs, upds, rfl, hq, by simpa using h.symm⟩
  · rw [if_pos (by simpa using hq)] at h
    exact absurd h (by simp)

/-- A successful per-line loop implies every processed item found its
product and passed the hard stock check against the pre-transaction row. -/
theorem procesar_items_ok_stock {productos : List Producto} {cid : ℕ} :
    ∀ {items : List Item} {st0 : ℚ} {dc0 : List Detalle_Carrito}
      {up0 : List Producto} {res : ℚ × List Detalle_Carrito × List Producto},
      procesar_items productos cid items st0 dc0 up0 = .ok res →
      ∀ item ∈ items, ∃ p, productos.find? (fun q => q.id == item.producto_id) = some p ∧
        ¬ p.stock < item.cantidad := by
  intro items
  induction items with
  | nil => intro _ _ _ _ _ item hmem; exact absurd hmem (by simp)
  | cons hd tl ih =>
    intro st0 dc0 up0 res h item hmem
    simp only [procesar_items] at h
    rcases hf : productos.find? (fun p => p.id == hd.producto_id) with _ | p
    · simp [hf] at h
    simp only [hf] at h
    by_cases hstk : p.stock < hd.cantidad
    · rw [if_pos hstk] at h; exact absurd h (by simp)
    rw [if_neg hstk] at h
    rcases List.mem_cons.mp hmem with heq | hmem2
    · exact ⟨p, heq ▸ hf, heq ▸ hstk⟩
    · exact ih h item hmem2

/-- A successful per-line loop only appends stock updates of the shape
"found product with its quantity subtracted, after the hard check". -/
theorem procesar_items_ok_upds {productos : List Producto} {cid : ℕ} :
    ∀ {items : List Item} {st0 : ℚ} {dc0 : List Detalle_Carrito}
      {up0 : List Producto} {st : ℚ} {dcs : List Detalle_Carrito}
      {upds : List Producto},
      procesar_items productos cid items st0 dc0 up0 = .ok (st, dcs, upds) →
      ∀ u ∈ upds, u ∈ up0 ∨
        ∃ item ∈ items, ∃ p,
          productos.find? (fun q => q.id == item.producto_id) = some p ∧
          ¬ p.stock < item.cantidad ∧
          u = { p with stock := p.stock - item.cantidad } := by
  intro items
  induction items with
  | nil =>
    intro st0 dc0 up0 st dcs upds h u hu
    simp only [procesar_items, Except.ok.injEq, Prod.mk.injEq] at h
    obtain ⟨-, -, h3⟩ := h
    exact Or.inl (h3.symm ▸ hu)
  | cons hd tl ih =>
    intro st0 dc0 up0 st dcs upds h u hu
    simp only [procesar_items] at h
    rcases hf : productos.find? (fun p => p.id == hd.producto_id) with _ | p
    · simp [hf] at h
    simp only [hf] at h
    by_cases hstk : p.stock < hd.cantidad
    · rw [if_pos hstk] at h; exact absurd h (by simp)
    rw [if_neg hstk] at h
    rcases ih h u hu with hin | ⟨item, hmem, p2, hf2, hs2, he2⟩
    · rcases List.mem_append.mp hin with hin0 | hin1
      · exact Or.inl hin0
      · refine Or.inr ⟨hd, List.mem_cons_self _ _, p, hf, hstk, ?_⟩
        simpa using List.mem_singleton.mp hin1
    · exact Or.inr ⟨item, List.mem_cons_of_mem _ hmem, p2, hf2, hs2, he2⟩

/-- Bulk update of non-negative rows by non-negative updates keeps all
stock values non-negative. -/
theorem bulk_update_nonneg :
    ∀ {upds productos : List Producto},
      (∀ p ∈ productos, 0 ≤ p.stock) → (∀ u ∈ upds, 0 ≤ u.stock) →
      ∀ p ∈ bulk_update productos upds, 0 ≤ p.stock := by
  intro upds
  induction upds with
  | nil => intro productos hp _ p hmem; exact hp p hmem
  | cons u us ih =>
    intro productos hp hu p hmem
    rw [bulk_update, List.foldl_cons] at hmem
    refine ih ?_ (fun v hv => hu v (List.mem_cons_of_mem _ hv)) p hmem
    intro q hq
    rcases List.mem_map.mp hq with ⟨q0, hq0, hqe⟩
    by_cases he : q0.id == u.id
    · rw [if_pos he] at hqe
      exact hqe ▸ hu u (List.mem_cons_self _ _)
    · rw [if_neg he] at hqe
      exact hqe ▸ hp q0 hq0

/-- Helper: when the first list holds no match, search continues in the
second. -/
theorem find?_append_none {α : Type} (p : α → Bool) {l1 : List α} (l2 : List α)
    (h : l1.find? p = none) : (l1 ++ l2).find? p = l2.find? p := by
  induction l1 with
  | nil => simp
  | cons a l ih =>
    by_cases hp : p a
    · rw [List.find?_cons_of_pos _ hp] at h; cases h
    · rw [List.find?_cons_of_neg _ hp] at h
      rw [List.cons_append, List.find?_cons_of_neg _ hp]
      exact ih h

/-- Accruing points rewrites the found customer record in place. -/
theorem find?_acreditar {uid : ℕ} {c : Cliente} (total : ℚ) :
    ∀ {clientes : List Cliente},
      clientes.find? (fun x => x.user_id == uid) = some c →
      (acreditar_puntos clientes uid total).find? (fun x => x.user_id == uid) =
        some { c with puntos_acumulados := c.puntos_acumulados + total * (5/10000) } := by
  intro clientes
  induction clientes with
  | nil => intro h; simp at h
  | cons hd tl ih =>
    intro h
    by_cases hh : (hd.user_id == uid) = true
    · simp only [List.find?, hh] at h
      obtain rfl : hd = c := by simpa using h
      simp [acreditar_puntos, List.find?, hh]
    · have hb : (hd.user_id == uid) = false := by simpa using hh
      simp only [List.find?, hb] at h
      simpa [acreditar_puntos, List.find?, hb] using ih h

/-- The get-or-create step never pushes a pair count above 1. -/
theorem cuenta_ensure_le_one {l : List TiendaCliente} {t c : ℕ} (t2 c2 : ℕ)
    (h : cuenta_asociacion l t c ≤ 1) :
    cuenta_asociacion (ensure_asociacion l t2 c2) t c ≤ 1 := by
  rcases hf : l.find? (fun a => a.tienda_id == t2 && a.cliente_id == c2) with _ | a
  · simp only [ensure_asociacion, hf]
    by_cases hb : (t2 == t && c2 == c) = true
    · obtain ⟨ht, hc⟩ : t2 = t ∧ c2 = c := by simpa using hb
      rw [ht, hc] at hf
      have hnil : l.filter (fun a => a.tienda_id == t && a.cliente_id == c) = [] := by
        rw [List.filter_eq_nil_iff]
        exact fun a ha => (List.find?_eq_none.mp hf) a ha
      rw [cuenta_asociacion, List.filter_append, hnil]
      simp [List.filter, ht, hc]
    · have hb2 : ((⟨t2, c2⟩ : TiendaCliente).tienda_id == t &&
          (⟨t2, c2⟩ : TiendaCliente).cliente_id == c) = false := by simpa using hb
      rw [cuenta_asociacion, List.filter_append,
        show List.filter (fun a => a.tienda_id == t && a.cliente_id == c)
          [(⟨t2, c2⟩ : TiendaCliente)] = [] from by simp [List.filter, hb2]]
      simpa [cuenta_asociacion] using h
  · simp only [ensure_asociacion, hf]
    exact h

/-- Any run of the confirmation endpoint keeps every pair count at 1 or
below. -/
theorem verificar_cuenta {db : DB} {r : String → Option StripeSession}
    {sid : Option String} {t c : ℕ}
    (h : cuenta_asociacion db.asociaciones t c ≤ 1) :
    cuenta_asociacion (verificar_sesion_checkout db r sid).1.asociaciones t c ≤ 1 := by
  rcases verificar_cases db r sid with ⟨h1, _⟩ | ⟨inp, db2, hp, heq⟩
  · rw [h1]; exact h
  · obtain ⟨st, dcs, upds, _, _, rfl⟩ := procesar_ok_shape hp
    rw [heq]
    simpa [db_comprometida] using cuenta_ensure_le_one inp.tienda_id inp.user_id h

/-- Any metadata record with a missing (falsy) required key fails the
`not all([...])` test. -/
theorem extraer_incompleta {s : StripeSession}
    (h : s.user_id = none ∨ s.tienda_id = none ∨ s.direccion_entrega = none ∨
      s.items_data = none ∨ s.payment_intent = none) :
    extraer_metadata s = .incompleta := by
  rcases s with ⟨st, u, t, d, i, p, a⟩
  rcases u with _ | u <;> rcases t with _ | t <;> rcases d with _ | d <;>
    rcases i with _ | i <;> rcases p with _ | p <;>
    simp_all [extraer_metadata]

/-! ## Claim theorems: the confirmation transaction -/

/-- C1: the order-materialization transaction is all-or-nothing.  Every
non-ok run leaves the database exactly as it was — no sale, cart, line
item, payment, shipment, stock or loyalty mutation survives — and a run
that reports ok committed exactly one new sale, payment, shipment and
cart. -/
theorem verificar_all_or_nothing :
    ∀ (db : DB) (r : String → Option StripeSession) (sid : Option String),
      ((verificar_sesion_checkout db r sid).2 ≠ .ok →
        (verificar_sesion_checkout db r sid).1 = db) ∧
      ((verificar_sesion_checkout db r sid).2 = .ok →
        (verificar_sesion_checkout db r sid).1.ventas.length = db.ventas.length + 1 ∧
        (verificar_sesion_checkout db r sid).1.pagos.length = db.pagos.length + 1 ∧
        (verificar_sesion_checkout db r sid).1.envios.length = db.envios.length + 1 ∧
        (verificar_sesion_checkout db r sid).1.carritos.length = db.carritos.length + 1) := by
  intro db r sid
  refine ⟨fun h => verificar_ne_ok_unchanged h, fun h => ?_⟩
  rcases verificar_cases db r sid with ⟨_, h2⟩ | ⟨inp, db2, hp, heq⟩
  · exact absurd h h2
  · obtain ⟨st, dcs, upds, _, _, rfl⟩ := procesar_ok_shape hp
    rw [heq]
    simp [db_comprometida]

/-- C1 witness: a failing run (unknown session) leaves the state intact;
a successful run on the concrete fixture adds exactly one sale. -/
theorem verificar_all_or_nothing_witness :
    (verificar_sesion_checkout dbEx retrieveNone (some "cs_1")).1 = dbEx ∧
    (verificar_sesion_checkout dbEx retrieveEx (some "cs_1")).1.ventas.length =
      dbEx.ventas.length + 1 :=
  ⟨(verificar_all_or_nothing dbEx retrieveNone (some "cs_1")).1
      (by with_unfolding_all decide),
   ((verificar_all_or_nothing dbEx retrieveEx (some "cs_1")).2
      (by with_unfolding_all decide)).1⟩

/-- C9: every pre-transaction failure — missing session id, Stripe error,
non-complete session, incomplete metadata, or unparseable items payload —
returns an error response with the database untouched. -/
theorem verificar_prevalidation_unchanged :
    ∀ (db : DB) (r : String → Option StripeSession) (sid : String) (s : StripeSession),
      verificar_sesion_checkout db r none = (db, .noSessionId) ∧
      (r sid = none → verificar_sesion_checkout db r (some sid) = (db, .stripeError)) ∧
      (r sid = some s → s.status ≠ "complete" →
        verificar_sesion_checkout db r (some sid) = (db, .notComplete)) ∧
      (r sid = some s → s.status = "complete" →
        (s.user_id = none ∨ s.tienda_id = none ∨ s.direccion_entrega = none ∨
          s.items_data = none ∨ s.payment_intent = none) →
        verificar_sesion_checkout db r (some sid) = (db, .metadataIncompleta)) ∧
      (∀ uid tid dir pid, r sid = some s → s.status = "complete" →
        s.user_id = some uid → s.tienda_id = some tid →
        s.direccion_entrega = some dir → s.payment_intent = some pid →
        s.items_data = some none →
        verificar_sesion_checkout db r (some sid) = (db, .jsonError)) := by
  intro db r sid s
  refine ⟨by simp [verificar_sesion_checkout], fun h => ?_, fun h1 h2 => ?_,
    fun h1 h2 h3 => ?_, fun uid tid dir pid h1 h2 hu ht hd hp hi => ?_⟩
  · simp [verificar_sesion_checkout, h]
  · simp [verificar_sesion_checkout, h1, h2]
  · simp [verificar_sesion_checkout, h1, h2, extraer_incompleta h3]
  · have hm : extraer_metadata s = .jsonInvalido := by
      rcases s with ⟨st, u, t, d, i, p, a⟩
      simp only at hu ht hd hp hi
      simp [extraer_metadata, hu, ht, hd, hp, hi]
    simp [verificar_sesion_checkout, h1, h2, hm]

/-- C9 witness: the missing-session-id, Stripe-error, incomplete-metadata
and bad-JSON paths on the concrete fixture. -/
theorem verificar_prevalidation_unchanged_witness :
    verificar_sesion_checkout dbEx retrieveNone none = (dbEx, .noSessionId) ∧
    verificar_sesion_checkout dbEx retrieveNone (some "cs_1") = (dbEx, .stripeError) ∧
    verificar_sesion_checkout dbEx (fun _ => some sessNoMeta) (some "cs_1") =
      (dbEx, .metadataIncompleta) ∧
    verificar_sesion_checkout dbEx (fun _ => some sessBadJson) (some "cs_1") =
      (dbEx, .jsonError) :=
  ⟨(verificar_prevalidation_unchanged dbEx retrieveNone "cs_1" sessNoMeta).1,
   (verificar_prevalidation_unchanged dbEx retrieveNone "cs_1" sessNoMeta).2.1
      (by with_unfolding_all decide),
   (verificar_prevalidation_unchanged dbEx (fun _ => some sessNoMeta) "cs_1"
      sessNoMeta).2.2.2.1 rfl rfl (Or.inl rfl),
   (verificar_prevalidation_unchanged dbEx (fun _ => some sessBadJson) "cs_1"
      sessBadJson).2.2.2.2 7 3 "Calle 1" "pi_123" rfl rfl rfl rfl rfl rfl rfl⟩

/-- C8: ensuring the store-customer association is idempotent — running
the get-or-create twice equals running it once — and no pair duplicated:
two consecutive confirmation runs never push a pair count above 1. -/
theorem asociacion_idempotente :
    ∀ (l : List TiendaCliente) (t c : ℕ) (db : DB)
      (r1 r2 : String → Option StripeSession) (s1 s2 : Option String),
      ensure_asociacion (ensure_asociacion l t c) t c = ensure_asociacion l t c ∧
      (cuenta_asociacion db.asociaciones t c ≤ 1 →
        cuenta_asociacion
          (verificar_sesion_checkout
            (verificar_sesion_checkout db r1 s1).1 r2 s2).1.asociaciones t c ≤ 1) := by
  intro l t c db r1 r2 s1 s2
  constructor
  · rcases hf : l.find? (fun a => a.tienda_id == t && a.cliente_id == c) with _ | a
    · have h2 : (l ++ [(⟨t, c⟩ : TiendaCliente)]).find?
          (fun a => a.tienda_id == t && a.cliente_id == c) = some ⟨t, c⟩ := by
        rw [find?_append_none _ _ hf]
        simp [List.find?]
      simp only [ensure_asociacion, hf, h2]
    · simp only [ensure_asociacion, hf]
  · intro h
    exact verificar_cuenta (verificar_cuenta h)

/-- C8 witness: the idempotence equation and the double-run bound on the
concrete fixture. -/
theorem asociacion_idempotente_witness :
    ensure_asociacion (ensure_asociacion [] 3 7) 3 7 = ensure_asociacion [] 3 7 ∧
    cuenta_asociacion
      (verificar_sesion_checkout
        (verificar_sesion_checkout dbEx retrieveEx (some "cs_1")).1
        retrieveEx (some "cs_1")).1.asociaciones 3 7 ≤ 1 :=
  ⟨(asociacion_idempotente [] 3 7 dbEx retrieveEx retrieveEx
      (some "cs_1") (some "cs_1")).1,
   (asociacion_idempotente [] 3 7 dbEx retrieveEx retrieveEx
      (some "cs_1") (some "cs_1")).2 (by with_unfolding_all decide)⟩

/-- C2: the total is re-derived from current catalog state and compared at
2-decimal precision against the processor-captured amount; a mismatch
aborts with the discrepancy error and leaves the database untouched, and
an ok response can only be produced when the quantized amounts agree. -/
theorem verificar_discrepancia :
    ∀ (db : DB) (r : String → Option StripeSession) (sid : String)
      (s : StripeSession) (inp : TxInput) (st : ℚ) (dcs : List Detalle_Carrito)
      (upds : List Producto),
      r sid = some s → s.status = "complete" → extraer_metadata s = .datos inp →
      (db.clientes.find? (fun c => c.user_id == inp.user_id)).isSome →
      (db.tiendas.find? (fun t => t == inp.tienda_id)).isSome →
      procesar_items db.productos db.next_id inp.items 0 [] [] = .ok (st, dcs, upds) →
      (quantize2 (st + calcular_costo_envio st) ≠ quantize2 inp.total_pagado →
        verificar_sesion_checkout db r (some sid) = (db, .txError .discrepancia)) ∧
      ((verificar_sesion_checkout db r (some sid)).2 = .ok →
        quantize2 (st + calcular_costo_envio st) = quantize2 inp.total_pagado) := by
  intro db r sid s inp st dcs upds h1 h2 h3 hc ht hi
  have hred := verificar_reduce db h1 h2 h3
  constructor
  · intro hne
    have hp : procesar_transaccion db inp = .error .discrepancia := by
      unfold procesar_transaccion
      obtain ⟨c, hc2⟩ := Option.isSome_iff_exists.mp hc
      obtain ⟨t, ht2⟩ := Option.isSome_iff_exists.mp ht
      simp only [hc2, ht2, hi]
      rw [if_pos hne]
    rw [hred, hp]
  · intro hok
    rcases hp : procesar_transaccion db inp with e | db2
    · rw [hred] at hok; simp [hp] at hok
    · obtain ⟨st2, dcs2, upds2, hi2, hq2, -⟩ := procesar_ok_shape hp
      rw [hi] at hi2
      obtain ⟨rfl, -, -⟩ : st = st2 ∧ dcs = dcs2 ∧ upds = upds2 := by simpa using hi2
      exact hq2

/-- C2 witness: a fixture where Stripe captured 9.99 but the recomputed
total is 23.00 aborts with the discrepancy error, database untouched. -/
theorem verificar_discrepancia_witness :
    verificar_sesion_checkout dbEx retrieveBad (some "cs_1") =
      (dbEx, .txError .discrepancia) :=
  (verificar_discrepancia dbEx retrieveBad "cs_1" sessBad inpBad 20
    [⟨0, 1, 2, 10⟩] [⟨1, "Widget", 10, 3⟩]
    (by with_unfolding_all decide) (by with_unfolding_all decide)
    (by with_unfolding_all decide) (by with_unfolding_all decide)
    (by with_unfolding_all decide) (by with_unfolding_all rfl)).1
    (by with_unfolding_all decide)

/-- C3: each cart line is re-checked against the locked pre-transaction
row — a run commits only if every line had stock at least its quantity at
check time, an insufficient line fails the whole run with nothing
persisted, the committed catalog is exactly the per-line decrements, and
non-negative stock is preserved by every run. -/
theorem verificar_stock :
    ∀ (db : DB) (r : String → Option StripeSession) (sid : String)
      (s : StripeSession) (inp : TxInput),
      r sid = some s → s.status = "complete" → extraer_metadata s = .datos inp →
      ((verificar_sesion_checkout db r (some sid)).2 = .ok →
        ∀ item ∈ inp.items, ∃ p,
          db.productos.find? (fun q => q.id == item.producto_id) = some p ∧
          item.cantidad ≤ p.stock) ∧
      ((∃ item ∈ inp.items, ∃ p,
          db.productos.find? (fun q => q.id == item.producto_id) = some p ∧
          p.stock < item.cantidad) →
        (verificar_sesion_checkout db r (some sid)).2 ≠ .ok ∧
        (verificar_sesion_checkout db r (some sid)).1 = db) ∧
      (∀ st dcs upds,
        procesar_items db.productos db.next_id inp.items 0 [] [] = .ok (st, dcs, upds) →
        (verificar_sesion_checkout db r (some sid)).2 = .ok →
        (verificar_sesion_checkout db r (some sid)).1.productos =
          bulk_update db.productos upds ∧
        ∀ u ∈ upds, ∃ item ∈ inp.items, ∃ p,
          db.productos.find? (fun q => q.id == item.producto_id) = some p ∧
          ¬ p.stock < item.cantidad ∧
          u = { p with stock := p.stock - item.cantidad }) ∧
      ((∀ p ∈ db.productos, 0 ≤ p.stock) →
        ∀ p ∈ (verificar_sesion_checkout db r (some sid)).1.productos, 0 ≤ p.stock) := by
  intro db r sid s inp h1 h2 h3
  have hred := verificar_reduce db h1 h2 h3
  refine ⟨?_, ?_, ?_, ?_⟩
  · intro hok item hmem
    rcases hp : procesar_transaccion db inp with e | db2
    · rw [hred] at hok; simp [hp] at hok
    · obtain ⟨st, dcs, upds, hi, -, -⟩ := procesar_ok_shape hp
      obtain ⟨p, hf, hs⟩ := procesar_items_ok_stock hi item hmem
      exact ⟨p, hf, not_lt.mp hs⟩
  · rintro ⟨item, hmem, p, hf, hs⟩
    have hne : (verificar_sesion_checkout db r (some sid)).2 ≠ .ok := by
      intro hok
      rcases hp : procesar_transaccion db inp with e | db2
      · rw [hred] at hok; simp [hp] at hok
      · obtain ⟨st, dcs, upds, hi, -, -⟩ := procesar_ok_shape hp
        obtain ⟨p2, hf2, hs2⟩ := procesar_items_ok_stock hi item hmem
        have hpe : p = p2 := by rw [hf] at hf2; simpa using hf2
        exact hs2 (hpe ▸ hs)
    exact ⟨hne, verificar_ne_ok_unchanged hne⟩
  · intro st dcs upds hi hok
    rcases hp : procesar_transaccion db inp with e | db2
    · rw [hred] at hok; simp [hp] at hok
    · obtain ⟨st2, dcs2, upds2, hi2, -, rfl⟩ := procesar_ok_shape hp
      rw [hi] at hi2
      obtain ⟨rfl, rfl, rfl⟩ : st = st2 ∧ dcs = dcs2 ∧ upds = upds2 := by simpa using hi2
      constructor
      · rw [hred, hp]
        simp [db_comprometida]
      · intro u hu
        rcases procesar_items_ok_upds hi u hu with hin | hrest
        · exact absurd hin (by simp)
        · exact hrest
  · intro hnn p hmem
    rcases verificar_cases db r (some sid) with ⟨heq, -⟩ | ⟨inp2, db2, hp, heq⟩
    · rw [heq] at hmem; exact hnn p hmem
    · obtain ⟨st, dcs, upds, hi, -, rfl⟩ := procesar_ok_shape hp
      rw [heq] at hmem
      simp only [db_comprometida] at hmem
      refine bulk_update_nonneg hnn ?_ p hmem
      intro u hu
      rcases procesar_items_ok_upds hi u hu with hin | ⟨item, -, p2, -, hs2, he2⟩
      · exact absurd hin (by simp)
      · rw [he2]
        have := not_lt.mp hs2
        simp only []
        omega

/-- C3 witness: a session asking for nine units with only five in stock
fails the whole run and leaves the state untouched. -/
theorem verificar_stock_witness :
    (verificar_sesion_checkout dbEx retrieveOversell (some "cs_1")).2 ≠ .ok ∧
    (verificar_sesion_checkout dbEx retrieveOversell (some "cs_1")).1 = dbEx :=
  (verificar_stock dbEx retrieveOversell "cs_1" sessOversell inpOversell
    (by decide) (by decide) (by with_unfolding_all rfl)).2.1
    ⟨⟨1, 9⟩, by decide, pEx, by decide, by decide⟩

/-- C7: a committed confirmation credits the customer exactly 0.05 percent
of the captured total — leaving the balance non-decreasing when the total
is non-negative — and any failed run leaves every customer record
untouched. -/
theorem verificar_puntos :
    ∀ (db : DB) (r : String → Option StripeSession) (sid : String)
      (s : StripeSession) (inp : TxInput) (c : Cliente),
      r sid = some s → s.status = "complete" → extraer_metadata s = .datos inp →
      db.clientes.find? (fun x => x.user_id == inp.user_id) = some c →
      0 ≤ inp.total_pagado →
      (((verificar_sesion_checkout db r (some sid)).2 = .ok →
        (verificar_sesion_checkout db r (some sid)).1.clientes =
          acreditar_puntos db.clientes inp.user_id inp.total_pagado ∧
        (verificar_sesion_checkout db r (some sid)).1.clientes.find?
            (fun x => x.user_id == inp.user_id) =
          some { c with puntos_acumulados :=
            c.puntos_acumulados + inp.total_pagado * (5/10000) } ∧
        c.puntos_acumulados ≤
          c.puntos_acumulados + inp.total_pagado * (5/10000)) ∧
      ((verificar_sesion_checkout db r (some sid)).2 ≠ .ok →
        (verificar_sesion_checkout db r (some sid)).1.clientes = db.clientes)) := by
  intro db r sid s inp c h1 h2 h3 hc hpos
  have hred := verificar_reduce db h1 h2 h3
  constructor
  · intro hok
    rcases hp : procesar_transaccion db inp with e | db2
    · rw [hred] at hok; simp [hp] at hok
    · obtain ⟨st, dcs, upds, hi, -, rfl⟩ := procesar_ok_shape hp
      have hfst : (verificar_sesion_checkout db r (some sid)).1 =
          db_comprometida db inp dcs upds := by rw [hred, hp]
      refine ⟨by rw [hfst]; simp [db_comprometida], ?_, ?_⟩
      · rw [hfst]
        simp only [db_comprometida]
        exact find?_acreditar inp.total_pagado hc
      · have : 0 ≤ inp.total_pagado * (5/10000) :=
          mul_nonneg hpos (by norm_num)
        linarith
  · intro hne
    rw [verificar_ne_ok_unchanged hne]

/-- C7 witness: the successful fixture run credits customer 7 exactly
23 times 0.0005 points. -/
theorem verificar_puntos_witness :
    (verificar_sesion_checkout dbEx retrieveEx (some "cs_1")).1.clientes.find?
        (fun x => x.user_id == (7 : ℕ)) =
      some { cEx with puntos_acumulados := cEx.puntos_acumulados + 23 * (5/10000) } :=
  ((verificar_puntos dbEx retrieveEx "cs_1" sessEx inpEx cEx
    (by with_unfolding_all decide) (by with_unfolding_all decide)
    (by with_unfolding_all decide) (by with_unfolding_all decide)
    (by with_unfolding_all decide)).1 (by with_unfolding_all decide)).2.1

/-! ## Staff workflow lemmas -/

/-- Updating the sale status rewrites the found sale record in place. -/
theorem find?_update_venta {vid : ℕ} {x : Venta} (v : String) :
    ∀ {ventas : List Venta},
      ventas.find? (fun y => y.id == vid) = some x →
      (update_venta_estado ventas vid v).find? (fun y => y.id == vid) =
        some { x with estado := v } := by
  intro ventas
  induction ventas with
  | nil => intro h; simp at h
  | cons hd tl ih =>
    intro h
    by_cases hh : (hd.id == vid) = true
    · simp only [List.find?, hh] at h
      obtain rfl : hd = x := by simpa using h
      simp [update_venta_estado, List.find?, hh]
    · have hb : (hd.id == vid) = false := by simpa using hh
      simp only [List.find?, hb] at h
      simpa [update_venta_estado, List.find?, hb] using ih h

/-- Updating the payment status rewrites the found payment record in
place. -/
theorem find?_update_first_pago {vid : ℕ} {a : Pago} (w : String) :
    ∀ {pagos : List Pago},
      pagos.find? (fun p => p.venta_id == vid) = some a →
      (update_first_pago pagos vid w).find? (fun p => p.venta_id == vid) =
        some { a with estado := w } := by
  intro pagos
  induction pagos with
  | nil => intro h; simp at h
  | cons hd tl ih =>
    intro h
    by_cases hh : (hd.venta_id == vid) = true
    · simp only [List.find?, hh] at h
      obtain rfl : hd = a := by simpa using h
      simp [update_first_pago, List.find?, hh]
    · have hb : (hd.venta_id == vid) = false := by simpa using hh
      simp only [List.find?, hb] at h
      simpa [update_first_pago, List.find?, hb] using ih h

/-- The shipment branch never touches the payment rows. -/
theorem pue_fst_pagos (doms : EstadoDominios) (db : DB) (vid : ℕ)
    (req : PURequest) : (partial_update_envio doms db vid req).1.pagos = db.pagos := by
  rcases hre : req.envio_estado with _ | v
  · simp [partial_update_envio, hre]
  · simp only [partial_update_envio, hre]
    rcases hf : db.envios.find? (fun e => e.venta_id == vid) with _ | a <;>
      simp only [hf]
    by_cases hv : v ∈ doms.envio
    · rw [if_pos hv]
    · rw [if_neg hv]

/-- The shipment branch never touches the sale rows. -/
theorem pue_fst_ventas (doms : EstadoDominios) (db : DB) (vid : ℕ)
    (req : PURequest) : (partial_update_envio doms db vid req).1.ventas = db.ventas := by
  rcases hre : req.envio_estado with _ | v
  · simp [partial_update_envio, hre]
  · simp only [partial_update_envio, hre]
    rcases hf : db.envios.find? (fun e => e.venta_id == vid) with _ | a <;>
      simp only [hf]
    by_cases hv : v ∈ doms.envio
    · rw [if_pos hv]
    · rw [if_neg hv]

/-- With no shipment status provided, the shipment branch is a no-op. -/
theorem pue_none (doms : EstadoDominios) (db : DB) (vid : ℕ) {req : PURequest}
    (h : req.envio_estado = none) :
    partial_update_envio doms db vid req = (db, .ok) := by
  simp [partial_update_envio, h]

/-- The payment and shipment branches never touch the sale rows. -/
theorem pup_fst_ventas (doms : EstadoDominios) (db : DB) (vid : ℕ)
    (req : PURequest) : (partial_update_pago doms db vid req).1.ventas = db.ventas := by
  rcases hre : req.pago_estado with _ | v
  · simp only [partial_update_pago, hre]
    exact pue_fst_ventas doms db vid req
  · simp only [partial_update_pago, hre]
    rcases hf : db.pagos.find? (fun p => p.venta_id == vid) with _ | a <;>
      simp only [hf]
    by_cases hv : v ∈ doms.pago
    · rw [if_pos hv]
      exact pue_fst_ventas doms _ vid req
    · rw [if_neg hv]

/-- With no payment status provided, the payment rows are untouched. -/
theorem pup_none_pagos (doms : EstadoDominios) (db : DB) (vid : ℕ)
    {req : PURequest} (h : req.pago_estado = none) :
    (partial_update_pago doms db vid req).1.pagos = db.pagos := by
  simp only [partial_update_pago, h]
  exact pue_fst_pagos doms db vid req

/-- With no shipment status provided, the shipment rows are untouched. -/
theorem pup_none_envios (doms : EstadoDominios) (db : DB) (vid : ℕ)
    {req : PURequest} (h : req.envio_estado = none) :
    (partial_update_pago doms db vid req).1.envios = db.envios := by
  rcases hre : req.pago_estado with _ | v
  · simp only [partial_update_pago, hre, pue_none doms db vid h]
  · simp only [partial_update_pago, hre]
    rcases hf : db.pagos.find? (fun p => p.venta_id == vid) with _ | a <;>
      simp only [hf]
    by_cases hv : v ∈ doms.pago
    · rw [if_pos hv, pue_none doms _ vid h]
    · rw [if_neg hv]

/-! ## Claim theorems: the staff status-mutation workflow -/

/-- C6: each provided status — sale, payment and shipment alike — is
validated against its enumerated domain before being applied and an
invalid value is rejected with the error naming that field; only provided
fields are mutated, and in particular a request carrying only an invalid
shipment status changes nothing and reports the shipment-status error. -/
theorem partial_update_valida :
    ∀ (doms : EstadoDominios) (db : DB) (vid : ℕ) (v : String) (req : PURequest),
      ((db.ventas.find? (fun x => x.id == vid)).isSome →
        v ∉ doms.venta → ∀ pe ee,
        partial_update doms db vid ⟨some v, pe, ee⟩ = (db, .invalidVenta v)) ∧
      ((db.ventas.find? (fun x => x.id == vid)).isSome →
        (db.pagos.find? (fun p => p.venta_id == vid)).isSome →
        v ∉ doms.pago → ∀ ee,
        partial_update doms db vid ⟨none, some v, ee⟩ = (db, .invalidPago v)) ∧
      ((db.ventas.find? (fun x => x.id == vid)).isSome →
        (db.envios.find? (fun e => e.venta_id == vid)).isSome →
        v ∉ doms.envio →
        partial_update doms db vid ⟨none, none, some v⟩ = (db, .invalidEnvio v)) ∧
      (req.estado = none → (partial_update doms db vid req).1.ventas = db.ventas) ∧
      (req.pago_estado = none → (partial_update doms db vid req).1.pagos = db.pagos) ∧
      (req.envio_estado = none → (partial_update doms db vid req).1.envios = db.envios) := by
  intro doms db vid v req
  refine ⟨fun hv hbad pe ee => ?_, fun hv hp hbad ee => ?_, fun hv he hbad => ?_,
    fun h => ?_, fun h => ?_, fun h => ?_⟩
  · obtain ⟨x, hx⟩ := Option.isSome_iff_exists.mp hv
    simp only [partial_update, hx]
    rw [if_neg hbad]
  · obtain ⟨x, hx⟩ := Option.isSome_iff_exists.mp hv
    obtain ⟨a, ha⟩ := Option.isSome_iff_exists.mp hp
    simp only [partial_update, hx, partial_update_pago, ha]
    rw [if_neg hbad]
  · obtain ⟨x, hx⟩ := Option.isSome_iff_exists.mp hv
    obtain ⟨a, ha⟩ := Option.isSome_iff_exists.mp he
    simp only [partial_update, hx, partial_update_pago, partial_update_envio, ha]
    rw [if_neg hbad]
  · rcases hx : db.ventas.find? (fun x => x.id == vid) with _ | x
    · simp [partial_update, hx]
    · simp only [partial_update, hx, h]
      exact pup_fst_ventas doms db vid req
  · rcases hx : db.ventas.find? (fun x => x.id == vid) with _ | x
    · simp [partial_update, hx]
    · simp only [partial_update, hx]
      rcases hre : req.estado with _ | w
      · exact pup_none_pagos doms db vid h
      · simp only []
        by_cases hw : w ∈ doms.venta
        · rw [if_pos hw]
          exact pup_none_pagos doms _ vid h
        · rw [if_neg hw]
  · rcases hx : db.ventas.find? (fun x => x.id == vid) with _ | x
    · simp [partial_update, hx]
    · simp only [partial_update, hx]
      rcases hre : req.estado with _ | w
      · exact pup_none_envios doms db vid h
      · simp only []
        by_cases hw : w ∈ doms.venta
        · rw [if_pos hw]
          exact pup_none_envios doms _ vid h
        · rw [if_neg hw]

/-- C6 witness: on the staff fixture, the invalid value LOST provided for
each of the three fields in turn is rejected naming that field, with the
state untouched. -/
theorem partial_update_valida_witness :
    partial_update domsEx dbStaff 1 ⟨some "LOST", none, none⟩ =
      (dbStaff, .invalidVenta "LOST") ∧
    partial_update domsEx dbStaff 1 ⟨none, some "LOST", none⟩ =
      (dbStaff, .invalidPago "LOST") ∧
    partial_update domsEx dbStaff 1 ⟨none, none, some "LOST"⟩ =
      (dbStaff, .invalidEnvio "LOST") :=
  ⟨(partial_update_valida domsEx dbStaff 1 "LOST" ⟨none, none, some "LOST"⟩).1
      (by decide) (by decide) none none,
   (partial_update_valida domsEx dbStaff 1 "LOST" ⟨none, none, some "LOST"⟩).2.1
      (by decide) (by decide) (by decide) none,
   (partial_update_valida domsEx dbStaff 1 "LOST" ⟨none, none, some "LOST"⟩).2.2.1
      (by decide) (by decide) (by decide)⟩

/-- C10: the staff update is not atomic across its fields.  For every
request in which a later field fails — the payment status after a valid
sale status, or the shipment status after any combination of valid
earlier fields — whether the failure is an invalid enumeration value or a
missing payment/shipment record, the error response is returned while
every earlier provided field's save is already persisted in the returned
state; the last two conjuncts show those saves as real in-place record
mutations. -/
theorem partial_update_no_atomico :
    ∀ (doms : EstadoDominios) (db : DB) (vid : ℕ) (req : PURequest) (x : Venta),
      db.ventas.find? (fun y => y.id == vid) = some x →
      (∀ v w, req.estado = some v → v ∈ doms.venta → req.pago_estado = some w →
        ((db.pagos.find? (fun p => p.venta_id == vid) = none →
          partial_update doms db vid req =
            (aplicar_estado db vid (some v), .pagoNotFound)) ∧
        ((db.pagos.find? (fun p => p.venta_id == vid)).isSome → w ∉ doms.pago →
          partial_update doms db vid req =
            (aplicar_estado db vid (some v), .invalidPago w)))) ∧
      (∀ ee, req.envio_estado = some ee →
        (req.estado = none ∨ ∃ v, req.estado = some v ∧ v ∈ doms.venta) →
        (req.pago_estado = none ∨ ∃ w, req.pago_estado = some w ∧ w ∈ doms.pago ∧
          (db.pagos.find? (fun p => p.venta_id == vid)).isSome) →
        ((db.envios.find? (fun en => en.venta_id == vid) = none →
          partial_update doms db vid req =
            (aplicar_pago (aplicar_estado db vid req.estado) vid req.pago_estado,
              .envioNotFound)) ∧
        ((db.envios.find? (fun en => en.venta_id == vid)).isSome → ee ∉ doms.envio →
          partial_update doms db vid req =
            (aplicar_pago (aplicar_estado db vid req.estado) vid req.pago_estado,
              .invalidEnvio ee)))) ∧
      (∀ v, (update_venta_estado db.ventas vid v).find? (fun y => y.id == vid) =
        some { x with estado := v }) ∧
      (∀ w a, db.pagos.find? (fun p => p.venta_id == vid) = some a →
        (update_first_pago db.pagos vid w).find? (fun p => p.venta_id == vid) =
          some { a with estado := w }) := by
  intro doms db vid req x hx
  refine ⟨fun v w hv hvv hw => ?_, fun ee hee hest hpago => ?_,
    fun v => find?_update_venta v hx, fun w a ha => find?_update_first_pago w ha⟩
  · have hred : partial_update doms db vid req =
        partial_update_pago doms (aplicar_estado db vid (some v)) vid req := by
      simp only [partial_update, hx, hv]
      rw [if_pos hvv]
      rfl
    constructor
    · intro hpn
      have hpn2 : (aplicar_estado db vid (some v)).pagos.find?
          (fun p => p.venta_id == vid) = none := hpn
      rw [hred]
      simp only [partial_update_pago, hw, hpn2]
    · intro hps hwbad
      obtain ⟨a, ha⟩ := Option.isSome_iff_exists.mp hps
      have ha2 : (aplicar_estado db vid (some v)).pagos.find?
          (fun p => p.venta_id == vid) = some a := ha
      rw [hred]
      simp only [partial_update_pago, hw, ha2]
      rw [if_neg hwbad]
  · have hred : partial_update doms db vid req =
        partial_update_envio doms
          (aplicar_pago (aplicar_estado db vid req.estado) vid req.pago_estado)
          vid req := by
      rcases hest with he0 | ⟨v, hv, hvv⟩
      · rcases hpago with hp0 | ⟨w, hw, hww, hps⟩
        · simp only [partial_update, hx, he0, partial_update_pago, hp0,
            aplicar_estado, aplicar_pago]
        · obtain ⟨a, ha⟩ := Option.isSome_iff_exists.mp hps
          simp only [partial_update, hx, he0, partial_update_pago, hw,
            aplicar_estado, aplicar_pago, ha]
          rw [if_pos hww]
      · rcases hpago with hp0 | ⟨w, hw, hww, hps⟩
        · simp only [partial_update, hx, hv]
          rw [if_pos hvv]
          simp only [partial_update_pago, hp0, aplicar_estado, aplicar_pago]
        · obtain ⟨a, ha⟩ := Option.isSome_iff_exists.mp hps
          have ha2 : ({ db with ventas := update_venta_estado db.ventas vid v } :
              DB).pagos.find? (fun p => p.venta_id == vid) = some a := ha
          simp only [partial_update, hx, hv]
          rw [if_pos hvv]
          simp only [partial_update_pago, hw, ha2, aplicar_estado, aplicar_pago]
          rw [if_pos hww]
    have henv : (aplicar_pago (aplicar_estado db vid req.estado) vid
        req.pago_estado).envios = db.envios := by
      rcases he2 : req.estado with _ | v2 <;> rcases hp2 : req.pago_estado with _ | w2 <;>
        simp [aplicar_estado, aplicar_pago]
    constructor
    · intro hfn
      have hfn2 : (aplicar_pago (aplicar_estado db vid req.estado) vid
          req.pago_estado).envios.find? (fun en => en.venta_id == vid) = none := by
        rw [henv]; exact hfn
      rw [hred]
      simp only [partial_update_envio, hee, hfn2]
    · intro hfs hbad
      obtain ⟨a, ha⟩ := Option.isSome_iff_exists.mp hfs
      have ha2 : (aplicar_pago (aplicar_estado db vid req.estado) vid
          req.pago_estado).envios.find? (fun en => en.venta_id == vid) = some a := by
        rw [henv]; exact ha
      rw [hred]
      simp only [partial_update_envio, hee, ha2]
      rw [if_neg hbad]

/-- C10 witness: on the staff fixture, PENDIENTE for the sale plus the
invalid payment status LOST persists the sale mutation and returns the
payment-status error; valid sale and payment statuses plus the invalid
shipment status LOST persist both earlier mutations and return the
shipment-status error. -/
theorem partial_update_no_atomico_witness :
    partial_update domsEx dbStaff 1 ⟨some "PENDIENTE", some "LOST", none⟩ =
      (aplicar_estado dbStaff 1 (some "PENDIENTE"), .invalidPago "LOST") ∧
    partial_update domsEx dbStaff 1 ⟨some "PENDIENTE", some "PENDIENTE", some "LOST"⟩ =
      (aplicar_pago (aplicar_estado dbStaff 1 (some "PENDIENTE")) 1 (some "PENDIENTE"),
        .invalidEnvio "LOST") :=
  ⟨((partial_update_no_atomico domsEx dbStaff 1 ⟨some "PENDIENTE", some "LOST", none⟩
      ventaEx (by decide)).1 "PENDIENTE" "LOST" rfl (by decide) rfl).2
      (by decide) (by decide),
   ((partial_update_no_atomico domsEx dbStaff 1
      ⟨some "PENDIENTE", some "PENDIENTE", some "LOST"⟩ ventaEx (by decide)).2.1
      "LOST" rfl (Or.inr ⟨"PENDIENTE", rfl, by decide⟩)
      (Or.inr ⟨"PENDIENTE", rfl, by decide, by decide⟩)).2
      (by decide) (by decide)⟩

end Ventas
